import Mathlib

/-! Shallow embedding of the `space_aces_bot` decision pipeline.

Coordinates and configuration distances are embedded as rationals (the
Python source uses floats; every literal appearing in the source is a
short decimal, hence rational).  Euclidean distances, which the source
computes with `** 0.5`, are embedded as real numbers via `Real.sqrt`.

Source files embedded below:
  * `core/game_state.py`  — `Position`, `Ship`, `Npc`, `Resource`,
    `GameState`, `GameState.advance_tick`, `GameState.get_current_target`
  * `core/actions.py`     — `ActionType`, `BotAction`
  * `modules/safety.py`   — `BasicSafety.assess`, `BasicSafety.decide`
  * `modules/farm.py`     — `BasicFarm.decide` and its target selection
  * `modules/combat.py`   — `BasicCombat.decide`
  * `modules/navigation.py` — `SimpleNavigation`
  * `modules/vision.py`   — `DummyVision.update_state` (tick bookkeeping)
  * `app/bot.py`          — the per-tick body of `main`'s loop and the
    bounded loop over `max_ticks`
-/

namespace SpaceAces

/-- A 2D position on the game map (`core/game_state.py`, `Position`). -/
structure Position where
  x : ℚ
  y : ℚ
deriving DecidableEq, Repr

/-- Player ship (`core/game_state.py`, `Ship`). -/
structure Ship where
  id : String
  position : Position
  hp : ℤ
  max_hp : ℤ
  shield : ℤ
  max_shield : ℤ
  speed : Option ℚ := none
deriving DecidableEq, Repr

/-- Non-player character (`core/game_state.py`, `Npc`). -/
structure Npc where
  id : String
  position : Position
  hp : ℤ
  max_hp : ℤ
  npc_type : String := "unknown"
deriving DecidableEq, Repr

/-- Resource box (`core/game_state.py`, `Resource`). -/
structure Resource where
  id : String
  position : Position
  resource_type : String
  value : ℤ
  kind : String := "unknown"
deriving DecidableEq, Repr

/-- Enemy player (`core/game_state.py`, `EnemyPlayer`). -/
structure EnemyPlayer where
  id : String
  position : Position
  threat_level : ℚ
deriving DecidableEq, Repr

/-- Map portal (`core/game_state.py`, `MapPortal`). -/
structure MapPortal where
  id : String
  position : Position
  target_map : String
deriving DecidableEq, Repr

/-- Insertion-ordered string-keyed dictionary, as a key/value list. -/
abbrev Dict (α : Type) : Type := List (String × α)

/-- Lookup `d.get(k)` on a Python dict embedded as a key/value list. -/
def Dict.get {α : Type} (d : Dict α) (k : String) : Option α :=
  (List.find? (fun kv => kv.1 = k) d).map (fun kv => kv.2)

/-- The `GameState` dataclass (`core/game_state.py`): the shared mutable world model. -/
structure GameState where
  ship : Ship
  current_map : String := "1-1"
  tick_counter : ℕ := 0
  current_target_id : Option String := none
  in_combat : Bool := false
  ticks_with_current_target : ℕ := 0
  npcs : Dict Npc := []
  resources : Dict Resource := []
  enemies : Dict EnemyPlayer := []
  portals : Dict MapPortal := []
  last_target_id : Option String := none
deriving DecidableEq, Repr

namespace GameState

/-- Embeds `GameState.get_current_target`. -/
def get_current_target (s : GameState) : Option Npc :=
  match s.current_target_id with
  | none => none
  | some tid => s.npcs.get tid

/-- Embeds `GameState.advance_tick`: advance the global tick counter and update
target-related counters.  Note that the dangling-target branch resets the
per-target counter and the internal tracking field, but leaves
`current_target_id` itself untouched. -/
def advance_tick (s : GameState) : GameState :=
  let s := { s with tick_counter := s.tick_counter + 1 }
  match s.current_target_id with
  | none =>
      { s with ticks_with_current_target := 0, last_target_id := none }
  | some current_id =>
      if s.npcs.get current_id = none then
        { s with ticks_with_current_target := 0, last_target_id := none }
      else
        let s :=
          if s.last_target_id ≠ some current_id then
            { s with ticks_with_current_target := 0 }
          else s
        { s with ticks_with_current_target := s.ticks_with_current_target + 1,
                 last_target_id := some current_id }

end GameState

/-- The `ActionType` enum (`core/actions.py`). -/
inductive ActionType where
  | IDLE | MOVE | ATTACK | COLLECT | JUMP | REPAIR | ESCAPE
deriving DecidableEq, Repr

/-- A value stored in a `BotAction` meta dictionary.  The source stores
heterogeneous Python values; the modules in scope store strings, booleans,
integers, float literals (rationals) and computed unit-vector components
(reals). -/
inductive MetaValue where
  | s (v : String)
  | b (v : Bool)
  | i (v : ℤ)
  | q (v : ℚ)
  | r (v : ℝ)

/-- The `BotAction` dataclass (`core/actions.py`). -/
structure BotAction where
  type : ActionType
  target_id : Option String := none
  position : Option Position := none
  meta : List (String × MetaValue) := []

/-! Section: Safety module (`modules/safety.py`, `BasicSafety`) -/

namespace BasicSafety

/-- Module constants from `modules/safety.py`. -/
def edge_warn_threshold : ℚ := 8/10
def edge_danger_threshold : ℚ := 12/10
def stationary_epsilon : ℚ := 1/1000
def stationary_ticks_warn : ℕ := 50
def stationary_ticks_escape : ℕ := 100
def escape_danger_threshold : ℤ := 70

/-- Private per-instance state of `BasicSafety` (`_last_position`,
`_stationary_ticks`). -/
structure State where
  last_position : Option Position := none
  stationary_ticks : ℕ := 0
deriving DecidableEq, Repr

/-- Embeds `BasicSafety.assess`: danger score in `[0, 100]`, together with the
updated private state (the source method mutates `self`). -/
def assess (ss : State) (state : GameState) : ℤ × State :=
  let ship := state.ship
  let pos := ship.position
  -- HP heuristic.
  let danger : ℤ :=
    if ship.max_hp > 0 then
      let hp_ratio : ℚ := max 0 (min 1 ((ship.hp : ℚ) / (ship.max_hp : ℚ)))
      if hp_ratio ≤ 3/10 then 60
      else if hp_ratio ≤ 6/10 then 30
      else 0
    else 0
  -- Edge heuristic (position treated as normalised around 0.0).
  let danger : ℤ :=
    if |pos.x| ≥ edge_danger_threshold ∨ |pos.y| ≥ edge_danger_threshold then
      danger + 40
    else if |pos.x| ≥ edge_warn_threshold ∨ |pos.y| ≥ edge_warn_threshold then
      danger + 20
    else danger
  -- Stationary heuristic.
  let stationary_ticks : ℕ :=
    match ss.last_position with
    | some lp =>
        let dx := pos.x - lp.x
        let dy := pos.y - lp.y
        if dx * dx + dy * dy ≤ stationary_epsilon * stationary_epsilon then
          ss.stationary_ticks + 1
        else 0
    | none => 0
  let danger : ℤ :=
    if stationary_ticks ≥ stationary_ticks_escape then danger + 40
    else if stationary_ticks ≥ stationary_ticks_warn then danger + 20
    else danger
  (max 0 (min 100 danger), { last_position := some pos, stationary_ticks })

/-- The escape action built by `BasicSafety.decide` for a given danger
score: a MOVE towards the map centre, flagged as an escape. -/
def escapeAction (danger : ℤ) : BotAction :=
  { type := ActionType.MOVE
    position := none
    meta := [("rel_x", MetaValue.q (1/2)), ("rel_y", MetaValue.q (1/2)),
             ("escape", MetaValue.b true), ("danger", MetaValue.i danger),
             ("reason", MetaValue.s "basic_safety_escape")] }

/-- Embeds `BasicSafety.decide`: run `assess` on the same state, return an
escape MOVE iff the score reaches the escape threshold. -/
def decide (ss : State) (state : GameState) : Option BotAction × State :=
  let (danger, ss') := assess ss state
  if danger < escape_danger_threshold then (none, ss')
  else (some (escapeAction danger), ss')

end BasicSafety

/-! Section: Farm module (`modules/farm.py`, `BasicFarm`) -/

namespace BasicFarm

/-- The configuration fields a constructed `BasicFarm` instance holds
(`_collect_boxes`, `_hunt_npcs` from the farm config section,
`_npc_priority` from the combat config section). -/
structure Cfg where
  collect_boxes : Bool := false
  hunt_npcs : Bool := true
  npc_priority : List String := []
deriving DecidableEq, Repr

/-- First element of a list minimising `key`, i.e. the head of a stable
ascending sort by `key` (Python `list.sort` is stable). -/
def argminFirst {α β : Type} [LinearOrder β] (key : α → β) (x : α)
    (xs : List α) : α :=
  xs.foldl (fun best cand => if key cand < key best then cand else best) x

/-- Embeds `BasicFarm._distance`: Euclidean ship/resource distance. -/
noncomputable def resourceDistance (ship : Ship) (res : Resource) : ℝ :=
  let dx : ℚ := ship.position.x - res.position.x
  let dy : ℚ := ship.position.y - res.position.y
  Real.sqrt ((dx : ℝ) * dx + (dy : ℝ) * dy)

/-- Embeds `BasicFarm._select_nearest_resource`: sort resources by distance to
the ship and take the first. -/
noncomputable def selectNearestResource (state : GameState) :
    Option Resource :=
  match state.resources.map (fun kv => kv.2) with
  | [] => none
  | res :: rest =>
      some (argminFirst (resourceDistance state.ship) res rest)

/-- Priority rank used by `BasicFarm._select_target`: index in the
priority list, with types absent from the list ranking last
(`List.indexOf` returns the length on a miss, exactly as the source's
`except ValueError: return len(self._npc_priority)`). -/
def sortKey (npc_priority : List String) (npc : Npc) : ℕ :=
  npc_priority.indexOf npc.npc_type

/-- Embeds `BasicFarm._select_target`: pick the NPC ranking first in a stable
ascending sort by `sortKey` (or the first NPC when no priority list is
configured). -/
def selectTarget (cfg : Cfg) (state : GameState) : Option Npc :=
  match state.npcs.map (fun kv => kv.2) with
  | [] => none
  | npc :: rest =>
      if cfg.npc_priority = [] then some npc
      else some (argminFirst (sortKey cfg.npc_priority) npc rest)

/-- The MOVE action `BasicFarm.decide` emits towards a resource. -/
def collectAction (res : Resource) : BotAction :=
  { type := ActionType.MOVE
    position := none
    meta := [("rel_x", MetaValue.q res.position.x),
             ("rel_y", MetaValue.q res.position.y),
             ("target_resource_id", MetaValue.s res.id),
             ("target_resource_kind", MetaValue.s res.kind)] }

/-- The NPC-hunting tail of `BasicFarm.decide` (everything after the
resource-collection block). -/
def huntStep (cfg : Cfg) (state : GameState) :
    Option BotAction × GameState :=
  if cfg.hunt_npcs = false then (none, state)
  else if state.current_target_id ≠ none then
    -- A target is already held; Combat decides what to do.
    (none, state)
  else
    match selectTarget cfg state with
    | none => (none, state)
    | some target =>
        (none, { state with current_target_id := some target.id,
                            in_combat := true,
                            ticks_with_current_target := 0 })

/-- Embeds `BasicFarm.decide`: collect boxes first when enabled, otherwise fall
back to NPC hunting. -/
noncomputable def decide (cfg : Cfg) (state : GameState) :
    Option BotAction × GameState :=
  if cfg.collect_boxes = true ∧ state.resources ≠ [] then
    match selectNearestResource state with
    | some res => (some (collectAction res), state)
    | none => huntStep cfg state
  else huntStep cfg state

end BasicFarm

/-! Section: Combat module (`modules/combat.py`, `BasicCombat`) -/

namespace BasicCombat

/-- The configuration fields a constructed `BasicCombat` instance holds
(defaults from `BasicCombat.__init__`; `max_target_time_seconds` is
interpreted as a per-target tick cap). -/
structure Cfg where
  enabled : Bool := true
  max_target_distance : ℚ := 1/5
  disengage_distance : ℚ := 7/20
  max_target_ticks : ℤ := 60
deriving DecidableEq, Repr

/-- The approach MOVE action emitted by `BasicCombat.decide`. -/
def approachAction (tid : String) (rel_x rel_y : ℝ) : BotAction :=
  { type := ActionType.MOVE
    target_id := some tid
    meta := [("rel_x", MetaValue.r rel_x), ("rel_y", MetaValue.r rel_y),
             ("reason", MetaValue.s "basic_combat_approach")] }

/-- The ATTACK action emitted by `BasicCombat.decide`. -/
def attackAction (tid : String) : BotAction :=
  { type := ActionType.ATTACK
    target_id := some tid
    meta := [("reason", MetaValue.s "basic_combat_attack")] }

/-- The x-component of the ship-to-target offset. -/
def deltaX (state : GameState) (target : Npc) : ℝ :=
  ((target.position.x - state.ship.position.x : ℚ) : ℝ)

/-- The y-component of the ship-to-target offset. -/
def deltaY (state : GameState) (target : Npc) : ℝ :=
  ((target.position.y - state.ship.position.y : ℚ) : ℝ)

/-- Euclidean ship-to-target distance, `(dx*dx + dy*dy) ** 0.5` in the
source. -/
noncomputable def shipTargetDistance (state : GameState) (target : Npc) : ℝ :=
  Real.sqrt (deltaX state target * deltaX state target +
             deltaY state target * deltaY state target)

/-- Embeds `BasicCombat.decide`: approach / attack / disengage for the currently
held target. -/
noncomputable def decide (cfg : Cfg) (state : GameState) :
    Option BotAction × GameState :=
  if cfg.enabled = false then (none, { state with in_combat := false })
  else
    match state.current_target_id with
    | none =>
        -- Combat does not choose targets, Farm does.
        (none, { state with in_combat := false,
                            ticks_with_current_target := 0 })
    | some tid =>
        match state.npcs.get tid with
        | none =>
            -- Target disappeared from the NPC list.
            (none, { state with current_target_id := none,
                                in_combat := false,
                                ticks_with_current_target := 0 })
        | some target =>
            let dx : ℝ := deltaX state target
            let dy : ℝ := deltaY state target
            let distance : ℝ := shipTargetDistance state target
            let ticks := state.ticks_with_current_target
            if distance ≥ (cfg.disengage_distance : ℝ) ∨
                (cfg.max_target_ticks > 0 ∧ (ticks : ℤ) ≥ cfg.max_target_ticks) then
              (none, { state with current_target_id := none,
                                  in_combat := false,
                                  ticks_with_current_target := 0 })
            else
              -- Valid target within the engagement envelope.
              let state := { state with in_combat := true }
              if distance > (cfg.max_target_distance : ℝ) then
                let rel_x := if distance > 0 then dx / distance else 0
                let rel_y := if distance > 0 then dy / distance else 0
                (some (approachAction tid rel_x rel_y), state)
              else
                (some (attackAction tid), state)

end BasicCombat

/-! Section: Navigation module (`modules/navigation.py`, `SimpleNavigation`) -/

namespace SimpleNavigation

def move_every_n_ticks : ℕ := 10

/-- Private per-instance state of `SimpleNavigation`. -/
structure State where
  destination : Option Position := none
  patrol_points : List (ℚ × ℚ) := [(2/10, 2/10), (8/10, 2/10), (8/10, 8/10), (2/10, 8/10)]
  current_index : ℕ := 0
  ticks_since_last_move : ℕ := 0
  mode : String := "patrol"
deriving DecidableEq, Repr

/-- Embeds `SimpleNavigation.enter_escape_mode`. -/
def enter_escape_mode (ns : State) : State :=
  { ns with mode := "escape", ticks_since_last_move := 0 }

/-- Embeds `SimpleNavigation.enter_patrol_mode`: a no-op when already patrolling. -/
def enter_patrol_mode (ns : State) : State :=
  if ns.mode ≠ "patrol" then { ns with mode := "patrol", ticks_since_last_move := 0 }
  else ns

/-- The escape MOVE emitted by `SimpleNavigation.tick` in escape mode. -/
def escapeMove : BotAction :=
  { type := ActionType.MOVE
    position := none
    meta := [("rel_x", MetaValue.q (1/2)), ("rel_y", MetaValue.q (1/2)),
             ("escape", MetaValue.b true)] }

/-- Clamp of a jittered patrol coordinate into `[0.05, 0.95]`. -/
def clampRel (v : ℚ) : ℚ := min (max v (5/100)) (95/100)

/-- Embeds `SimpleNavigation.tick`.  The source draws the patrol jitter from
`random.uniform(-0.05, 0.05)`; here the two jitter samples are passed as
explicit arguments `jx`, `jy`.  The `state` argument is unused by the
source as well. -/
def tick (jx jy : ℚ) (ns : State) (_state : GameState) :
    Option BotAction × State :=
  let ns := { ns with ticks_since_last_move := ns.ticks_since_last_move + 1 }
  if ns.mode = "escape" then (some escapeMove, ns)
  else if ns.mode = "patrol" then
    if ns.ticks_since_last_move < move_every_n_ticks then (none, ns)
    else
      let ns := { ns with ticks_since_last_move := 0 }
      match ns.patrol_points with
      | [] => (none, ns)
      | _ :: _ =>
          -- The index stays below the length (it is maintained modulo the
          -- length), so the default of `getD` is never used.
          let base := ns.patrol_points.getD (ns.current_index % ns.patrol_points.length) (0, 0)
          let rel_x := clampRel (base.1 + jx)
          let rel_y := clampRel (base.2 + jy)
          let ns := { ns with current_index := (ns.current_index + 1) % ns.patrol_points.length }
          (some { type := ActionType.MOVE
                  position := none
                  meta := [("rel_x", MetaValue.q rel_x), ("rel_y", MetaValue.q rel_y),
                           ("waypoint_index", MetaValue.i ns.current_index)] }, ns)
  else (none, ns)

end SimpleNavigation

/-! Section: Vision (`modules/vision.py`) -/

namespace DummyVision

/-- Embeds `DummyVision.update_state`: advances the tick and nothing else. -/
def update_state (state : GameState) : GameState :=
  state.advance_tick

end DummyVision

/-! Section: Decision loop (`app/bot.py`, the body of `main`)

The loop is embedded parametrically over the behaviours of the modules it
calls.  Each behaviour may fail (`Except String`), reflecting that any of
these Python calls may raise; the loop body itself contains no exception
handler, so the embedding simply propagates errors, exactly as the
`for` body in `main` does.  The tick returns an event trace recording, in
order, which module calls the tick performed and what they returned. -/

/-- One observable step of a loop tick. -/
inductive Event where
  | vision
  | assess (danger : ℤ)
  | sdecide (a : Option BotAction)
  | escapeMode
  | patrolMode
  | fdecide (a : Option BotAction)
  | cdecide (a : Option BotAction)
  | ntick (a : Option BotAction)
  | dispatch (a : BotAction)
  | advance

/-- The mutable state threaded through the loop: the shared world model
plus the private states of the stateful modules (`BasicSafety`,
`SimpleNavigation`). -/
structure LoopState where
  game : GameState
  safety : BasicSafety.State
  nav : SimpleNavigation.State

/-- The module behaviours the loop calls each tick. -/
structure Behaviors where
  visionUpdate : GameState → Except String GameState
  safetyAssess : GameState → BasicSafety.State → Except String (ℤ × BasicSafety.State)
  safetyDecide : GameState → BasicSafety.State → Except String (Option BotAction × BasicSafety.State)
  farmDecide : GameState → Except String (Option BotAction × GameState)
  combatDecide : GameState → Except String (Option BotAction × GameState)
  navTick : GameState → SimpleNavigation.State → Except String (Option BotAction × SimpleNavigation.State)
  execute : BotAction → GameState → Except String GameState

/-- One tick of the main loop in `app/bot.py` (`main`): perception
update, safety assessment, then the priority chain
Safety > Farm > Combat > Navigation with early exit, each firing branch
dispatching its action and advancing the tick. -/
def loopTick (b : Behaviors) (ls : LoopState) :
    Except String (LoopState × List Event) :=
  match b.visionUpdate ls.game with
  | .error e => .error e
  | .ok g =>
    match b.safetyAssess g ls.safety with
    | .error e => .error e
    | .ok (danger, ss1) =>
      match b.safetyDecide g ss1 with
      | .error e => .error e
      | .ok (escape_action, ss2) =>
        match escape_action with
        | some a =>
            match b.execute a g with
            | .error e => .error e
            | .ok g2 =>
                .ok (⟨g2.advance_tick, ss2, SimpleNavigation.enter_escape_mode ls.nav⟩,
                  [Event.vision, Event.assess danger, Event.sdecide (some a),
                   Event.escapeMode, Event.dispatch a, Event.advance])
        | none =>
          match b.farmDecide g with
          | .error e => .error e
          | .ok (farm_action, g2) =>
            match farm_action with
            | some a =>
                match b.execute a g2 with
                | .error e => .error e
                | .ok g3 =>
                    .ok (⟨g3.advance_tick, ss2, SimpleNavigation.enter_patrol_mode ls.nav⟩,
                      [Event.vision, Event.assess danger, Event.sdecide none,
                       Event.patrolMode, Event.fdecide (some a),
                       Event.dispatch a, Event.advance])
            | none =>
              match b.combatDecide g2 with
              | .error e => .error e
              | .ok (combat_action, g3) =>
                match combat_action with
                | some a =>
                    match b.execute a g3 with
                    | .error e => .error e
                    | .ok g4 =>
                        .ok (⟨g4.advance_tick, ss2, SimpleNavigation.enter_patrol_mode ls.nav⟩,
                          [Event.vision, Event.assess danger, Event.sdecide none,
                           Event.patrolMode, Event.fdecide none,
                           Event.cdecide (some a), Event.dispatch a, Event.advance])
                | none =>
                  match b.navTick g3 (SimpleNavigation.enter_patrol_mode ls.nav) with
                  | .error e => .error e
                  | .ok (nav_action, nav2) =>
                    match nav_action with
                    | some a =>
                        match b.execute a g3 with
                        | .error e => .error e
                        | .ok g4 =>
                            .ok (⟨g4.advance_tick, ss2, nav2⟩,
                              [Event.vision, Event.assess danger, Event.sdecide none,
                               Event.patrolMode, Event.fdecide none, Event.cdecide none,
                               Event.ntick (some a), Event.dispatch a, Event.advance])
                    | none =>
                        .ok (⟨g3.advance_tick, ss2, nav2⟩,
                          [Event.vision, Event.assess danger, Event.sdecide none,
                           Event.patrolMode, Event.fdecide none, Event.cdecide none,
                           Event.ntick none, Event.advance])

/-- The bounded main loop: `for _ in range(max_ticks)` with the
wall-clock limit disabled (`max_seconds = 0`), propagating any error
raised inside a tick, as `main` does. -/
def runLoop (b : Behaviors) : ℕ → LoopState → Except String LoopState
  | 0, ls => .ok ls
  | n + 1, ls =>
      match loopTick b ls with
      | .error e => .error e
      | .ok (ls', _) => runLoop b n ls'

/-- The loop instantiated with the concrete in-repository modules, as
`create_default_modules` wires them with `vision.enabled = false`
(`DummyVision`) and the Selenium driver (whose `execute` never touches
the `GameState`).  `jx`, `jy` stand for the navigation jitter samples. -/
noncomputable def basicBehaviors (fcfg : BasicFarm.Cfg) (ccfg : BasicCombat.Cfg)
    (jx jy : ℚ) : Behaviors where
  visionUpdate g := .ok (DummyVision.update_state g)
  safetyAssess g ss := .ok (BasicSafety.assess ss g)
  safetyDecide g ss := .ok (BasicSafety.decide ss g)
  farmDecide g := .ok (BasicFarm.decide fcfg g)
  combatDecide g := .ok (BasicCombat.decide ccfg g)
  navTick g ns := .ok (SimpleNavigation.tick jx jy ns g)
  execute _ g := .ok g

/-! Section: Concrete fixtures used by witnesses and counterexamples -/

/-- The initial ship built in `app/bot.py` (`main`). -/
def initShip : Ship :=
  { id := "player-1", position := ⟨0, 0⟩, hp := 100, max_hp := 100,
    shield := 50, max_shield := 50, speed := some 1 }

/-- The initial world model built in `app/bot.py` (`main`). -/
def initState : GameState := { ship := initShip }

/-- The initial loop state: fresh world model, fresh `BasicSafety`,
fresh `SimpleNavigation`. -/
def initLoopState : LoopState := ⟨initState, {}, {}⟩

/-- A state holding a target id that no NPC carries. -/
def ghostState : GameState :=
  { ship := initShip, current_target_id := some "ghost", in_combat := true,
    ticks_with_current_target := 4, tick_counter := 7 }

/-- A state in danger: hp ratio `0.2` and `x`-position in the warn band. -/
def dangerState : GameState :=
  { ship := { initShip with hp := 20, position := ⟨9/10, 0⟩ } }

/-- The farm configuration of the C8 scenario in the spec. -/
def weakFirstCfg : BasicFarm.Cfg :=
  { collect_boxes := false, hunt_npcs := true,
    npc_priority := ["weak_npc", "medium_npc"] }

/-- A state holding one `medium_npc` (first in iteration order) and one
`weak_npc`, with no current target. -/
def twoNpcState : GameState :=
  { ship := initShip
    npcs := [("medium-1", { id := "medium-1", position := ⟨1/10, 1/10⟩,
                            hp := 100, max_hp := 100, npc_type := "medium_npc" }),
             ("weak-1", { id := "weak-1", position := ⟨2/10, 2/10⟩,
                          hp := 100, max_hp := 100, npc_type := "weak_npc" })] }

/-- A state that holds a target and also sees a resource box. -/
def heldTargetBoxState : GameState :=
  { ship := initShip
    current_target_id := some "npc-1"
    in_combat := true
    npcs := [("npc-1", { id := "npc-1", position := ⟨1/10, 0⟩,
                         hp := 100, max_hp := 100, npc_type := "weak_npc" })]
    resources := [("res-1", { id := "res-1", position := ⟨3/10, 4/10⟩,
                              resource_type := "bonus_box", value := 0,
                              kind := "bonus_box" })] }

/-- A `BasicFarm` configured to collect boxes. -/
def collectCfg : BasicFarm.Cfg :=
  { collect_boxes := true, hunt_npcs := true, npc_priority := [] }

/-- A held target sitting at distance `0.5` from the ship. -/
def farNpc : Npc :=
  { id := "npc-1", position := ⟨3/10, 4/10⟩, hp := 100, max_hp := 100,
    npc_type := "weak_npc" }

def farState : GameState :=
  { ship := initShip, current_target_id := some "npc-1", in_combat := true,
    ticks_with_current_target := 3, npcs := [("npc-1", farNpc)] }

/-- A held target at distance `0.1`, within the default attack range. -/
def nearNpc : Npc :=
  { id := "npc-1", position := ⟨6/100, 8/100⟩, hp := 100, max_hp := 100,
    npc_type := "weak_npc" }

def nearState : GameState :=
  { ship := initShip, current_target_id := some "npc-1", in_combat := false,
    ticks_with_current_target := 0, npcs := [("npc-1", nearNpc)] }

/-- Whether an event is an actuator dispatch. -/
def Event.isDispatch : Event → Bool
  | Event.dispatch _ => true
  | _ => false

/-- Loop behaviours where every module is pure and produces no action:
the baseline used to exercise the loop plumbing. -/
def quietBehaviors : Behaviors where
  visionUpdate g := Except.ok g.advance_tick
  safetyAssess _ ss := Except.ok (0, ss)
  safetyDecide _ ss := Except.ok (none, ss)
  farmDecide g := Except.ok (none, g)
  combatDecide g := Except.ok (none, g)
  navTick _ ns := Except.ok (none, ns)
  execute _ g := Except.ok g

/-- The `quietBehaviors` record with a combat module that raises an exception, as a
Python module whose `decide` throws would. -/
def throwingCombatBehaviors : Behaviors :=
  { quietBehaviors with combatDecide := fun _ => Except.error "boom" }

/-- A loop state whose safety module has already seen the ship sitting at
its current position for 7 assessments. -/
def stationaryLoopState : LoopState :=
  ⟨initState, ⟨some ⟨0, 0⟩, 7⟩, {}⟩

/-! Section: C2 — dangling-target behaviour of `advance_tick` -/

/-- C2 (counterexample): the claim says one `advance_tick` on a state
whose `current_target_id` is absent from `npcs` sets `current_target_id`
to `None`.  On `ghostState` (target id `"ghost"`, empty `npcs`) the code
leaves `current_target_id` set. -/
theorem c2_dangling_target_not_cleared_counterexample :
    ghostState.current_target_id = some "ghost" ∧
    ghostState.npcs.get "ghost" = none ∧
    ghostState.advance_tick.current_target_id = some "ghost" ∧
    ¬ ghostState.advance_tick.current_target_id = none := by
  refine ⟨rfl, rfl, rfl, ?_⟩
  decide

/-- C2 (amended): for every `GameState` whose `current_target_id` is set
to an id absent from `npcs`, one call to `advance_tick` resets
`ticks_with_current_target` to `0` and clears the internal last-target
tracking, but leaves `current_target_id` unchanged (still set); only the
tick counter moves. -/
theorem c2_dangling_target_resets_counter_only (s : GameState) (tid : String)
    (htid : s.current_target_id = some tid) (hmiss : s.npcs.get tid = none) :
    s.advance_tick = { s with tick_counter := s.tick_counter + 1,
                              ticks_with_current_target := 0,
                              last_target_id := none } := by
  simp [GameState.advance_tick, htid, hmiss]

/-- C2 (witness): the amended theorem evaluated on `ghostState`. -/
theorem c2_dangling_target_witness :
    ghostState.advance_tick = { ghostState with tick_counter := 8,
                                                ticks_with_current_target := 0,
                                                last_target_id := none } :=
  c2_dangling_target_resets_counter_only ghostState "ghost" rfl rfl

/-! Section: C5 — safety decide fires iff the assessed danger reaches 70 -/

/-- C5: `BasicSafety.decide` returns a non-null action iff the danger
score computed by the same scoring logic (`BasicSafety.assess` run from
the same private state on the same game state) is at least the escape
threshold 70; when it fires the action is the escape-flagged MOVE
carrying that danger score, and `decide` leaves the private state exactly
as that `assess` call does. -/
theorem c5_safety_decide_iff_threshold (ss : BasicSafety.State) (st : GameState) :
    ((BasicSafety.decide ss st).1.isSome ↔
      BasicSafety.escape_danger_threshold ≤ (BasicSafety.assess ss st).1) ∧
    BasicSafety.escape_danger_threshold = 70 ∧
    ((BasicSafety.decide ss st).1.isSome →
      (BasicSafety.decide ss st).1 =
        some (BasicSafety.escapeAction (BasicSafety.assess ss st).1)) ∧
    (∀ d, (BasicSafety.escapeAction d).type = ActionType.MOVE ∧
      ("escape", MetaValue.b true) ∈ (BasicSafety.escapeAction d).meta ∧
      ("danger", MetaValue.i d) ∈ (BasicSafety.escapeAction d).meta) ∧
    (BasicSafety.decide ss st).2 = (BasicSafety.assess ss st).2 := by
  have hmeta : ∀ d : ℤ, (BasicSafety.escapeAction d).type = ActionType.MOVE ∧
      ("escape", MetaValue.b true) ∈ (BasicSafety.escapeAction d).meta ∧
      ("danger", MetaValue.i d) ∈ (BasicSafety.escapeAction d).meta := by
    intro d
    refine ⟨rfl, ?_, ?_⟩ <;> simp [BasicSafety.escapeAction]
  rcases h : BasicSafety.assess ss st with ⟨d, ss'⟩
  have hdec : BasicSafety.decide ss st =
      if d < BasicSafety.escape_danger_threshold then (none, ss')
      else (some (BasicSafety.escapeAction d), ss') := by
    simp [BasicSafety.decide, h]
  by_cases hd : d < BasicSafety.escape_danger_threshold
  · rw [hdec, if_pos hd]
    exact ⟨by simp [not_le.mpr hd], rfl, by simp, hmeta, rfl⟩
  · rw [hdec, if_neg hd]
    exact ⟨by simp [not_lt.mp hd], rfl, fun _ => rfl, hmeta, rfl⟩

/-- C5 (witness): on `dangerState` (hp ratio `0.2`, warn-band position)
a fresh `BasicSafety` fires, and the emitted action is the escape MOVE of
the assessed score. -/
theorem c5_safety_decide_witness :
    (BasicSafety.decide {} dangerState).1 =
      some (BasicSafety.escapeAction (BasicSafety.assess {} dangerState).1) :=
  (c5_safety_decide_iff_threshold {} dangerState).2.2.1 (by
    norm_num [BasicSafety.decide, BasicSafety.assess, dangerState, initShip,
      BasicSafety.edge_danger_threshold, BasicSafety.edge_warn_threshold,
      BasicSafety.stationary_ticks_warn, BasicSafety.stationary_ticks_escape,
      BasicSafety.escape_danger_threshold,
      abs_of_nonneg, max_def, min_def])

/-! Section: C8 / C9 — farm target selection and deferral -/

theorem argminFirst_mem {α β : Type} [LinearOrder β] (key : α → β) (x : α)
    (xs : List α) : BasicFarm.argminFirst key x xs ∈ x :: xs := by
  induction xs generalizing x with
  | nil => exact List.mem_cons_self x []
  | cons y ys ih =>
      have h : BasicFarm.argminFirst key x (y :: ys) =
          BasicFarm.argminFirst key (if key y < key x then y else x) ys := rfl
      rw [h]
      rcases List.mem_cons.mp (ih (if key y < key x then y else x)) with h1 | h1
      · rw [h1]
        by_cases hk : key y < key x <;> simp [hk]
      · exact List.mem_cons_of_mem _ (List.mem_cons_of_mem _ h1)

theorem argminFirst_le_key {α β : Type} [LinearOrder β] (key : α → β) (x : α)
    (xs : List α) :
    ∀ y ∈ x :: xs, key (BasicFarm.argminFirst key x xs) ≤ key y := by
  induction xs generalizing x with
  | nil => simp [BasicFarm.argminFirst]
  | cons z zs ih =>
      intro y hy
      have harg : BasicFarm.argminFirst key x (z :: zs) =
          BasicFarm.argminFirst key (if key z < key x then z else x) zs := rfl
      rw [harg]
      have hstep := ih (if key z < key x then z else x)
      have hhead := hstep _ (List.mem_cons_self _ _)
      have hx : key (if key z < key x then z else x) ≤ key x := by
        by_cases hk : key z < key x
        · simpa [hk] using le_of_lt hk
        · simp [hk]
      have hz : key (if key z < key x then z else x) ≤ key z := by
        by_cases hk : key z < key x
        · simp [hk]
        · simpa [hk] using le_of_not_lt hk
      rcases List.mem_cons.mp hy with h1 | h1
      · subst h1
        exact le_trans hhead hx
      · rcases List.mem_cons.mp h1 with h2 | h2
        · subst h2
          exact le_trans hhead hz
        · exact hstep y (List.mem_cons_of_mem _ h2)

/-- Running `BasicFarm._select_target` on a non-empty NPC dict returns an NPC of
the dict whose priority rank is minimal. -/
theorem selectTarget_spec (cfg : BasicFarm.Cfg) (st : GameState)
    (hnpcs : st.npcs ≠ []) :
    ∃ target : Npc,
      BasicFarm.selectTarget cfg st = some target ∧
      target ∈ st.npcs.map (fun kv => kv.2) ∧
      ∀ npc ∈ st.npcs.map (fun kv => kv.2),
        BasicFarm.sortKey cfg.npc_priority target ≤
          BasicFarm.sortKey cfg.npc_priority npc := by
  rcases hnp : st.npcs with _ | ⟨kv, rest⟩
  · exact absurd hnp hnpcs
  · by_cases hpri : cfg.npc_priority = []
    · refine ⟨kv.2, ?_, ?_, ?_⟩
      · simp [BasicFarm.selectTarget, hnp, hpri]
      · simp [hnp]
      · intro npc _
        simp [BasicFarm.sortKey, hpri]
    · refine ⟨BasicFarm.argminFirst (BasicFarm.sortKey cfg.npc_priority) kv.2
        (rest.map (fun kv => kv.2)), ?_, ?_, ?_⟩
      · simp [BasicFarm.selectTarget, hnp, hpri]
      · have := argminFirst_mem (BasicFarm.sortKey cfg.npc_priority) kv.2
          (rest.map (fun kv => kv.2))
        simpa [hnp] using this
      · intro npc hmem
        refine argminFirst_le_key (BasicFarm.sortKey cfg.npc_priority) kv.2
          (rest.map (fun kv => kv.2)) npc ?_
        simpa [hnp] using hmem

/-- C8: with NPC hunting enabled, no applicable resource collection, a
non-empty NPC dict and no held target, `BasicFarm.decide` selects the
NPC of minimal priority rank (types absent from the priority list rank
last), stores it as the current target, raises `in_combat`, resets the
per-target counter, and returns no action. -/
theorem c8_farm_selects_priority_target (cfg : BasicFarm.Cfg) (st : GameState)
    (hhunt : cfg.hunt_npcs = true)
    (hnores : ¬(cfg.collect_boxes = true ∧ st.resources ≠ []))
    (htid : st.current_target_id = none)
    (hnpcs : st.npcs ≠ []) :
    ∃ target : Npc,
      BasicFarm.selectTarget cfg st = some target ∧
      target ∈ st.npcs.map (fun kv => kv.2) ∧
      (∀ npc ∈ st.npcs.map (fun kv => kv.2),
        BasicFarm.sortKey cfg.npc_priority target ≤
          BasicFarm.sortKey cfg.npc_priority npc) ∧
      BasicFarm.decide cfg st =
        (none, { st with current_target_id := some target.id,
                         in_combat := true,
                         ticks_with_current_target := 0 }) := by
  obtain ⟨target, hsel, hmem, hmin⟩ := selectTarget_spec cfg st hnpcs
  refine ⟨target, hsel, hmem, hmin, ?_⟩
  rw [BasicFarm.decide, if_neg hnores, BasicFarm.huntStep]
  simp [hhunt, htid, hsel]

/-- C8 (witness): the spec scenario, `npc_priority = ["weak_npc",
"medium_npc"]` with one NPC of each type and no held target. -/
theorem c8_farm_selects_witness :
    ∃ target : Npc,
      BasicFarm.selectTarget weakFirstCfg twoNpcState = some target ∧
      target ∈ twoNpcState.npcs.map (fun kv => kv.2) ∧
      (∀ npc ∈ twoNpcState.npcs.map (fun kv => kv.2),
        BasicFarm.sortKey weakFirstCfg.npc_priority target ≤
          BasicFarm.sortKey weakFirstCfg.npc_priority npc) ∧
      BasicFarm.decide weakFirstCfg twoNpcState =
        (none, { twoNpcState with current_target_id := some target.id,
                                  in_combat := true,
                                  ticks_with_current_target := 0 }) :=
  c8_farm_selects_priority_target weakFirstCfg twoNpcState rfl
    (by simp [weakFirstCfg]) rfl (by simp [twoNpcState])

/-- C9 (counterexample): the claim says `BasicFarm.decide` returns null
whenever a target is held, regardless of the farm configuration.  With
box collection enabled and a resource visible, the code returns a MOVE
action even though a target is held. -/
theorem c9_farm_collect_overrides_held_target_counterexample :
    heldTargetBoxState.current_target_id ≠ none ∧
    (BasicFarm.decide collectCfg heldTargetBoxState).1 ≠ none := by
  constructor
  · simp [heldTargetBoxState]
  · simp [BasicFarm.decide, collectCfg, heldTargetBoxState,
      BasicFarm.selectNearestResource, BasicFarm.argminFirst,
      BasicFarm.collectAction]

/-- C9 (amended): when a target is already held and the
resource-collection branch does not apply (collection disabled or no
resources visible), `BasicFarm.decide` returns null and leaves the world
model unchanged. -/
theorem c9_farm_defers_when_target_held (cfg : BasicFarm.Cfg)
    (st : GameState) (htid : st.current_target_id ≠ none)
    (hnores : ¬(cfg.collect_boxes = true ∧ st.resources ≠ [])) :
    BasicFarm.decide cfg st = (none, st) := by
  rw [BasicFarm.decide, if_neg hnores, BasicFarm.huntStep]
  by_cases hh : cfg.hunt_npcs = false
  · rw [if_pos hh]
  · rw [if_neg hh, if_pos htid]

/-- C9 (witness): the amended theorem on a held-target state without
resources, with collection enabled. -/
theorem c9_farm_defers_witness :
    BasicFarm.decide collectCfg { heldTargetBoxState with resources := [] } =
      (none, { heldTargetBoxState with resources := [] }) :=
  c9_farm_defers_when_target_held collectCfg
    { heldTargetBoxState with resources := [] }
    (by simp [heldTargetBoxState]) (by simp)

/-! Section: C6 / C7 — combat disengage and attack behaviour -/

/-- C6: for every enabled `BasicCombat` and state whose held target
resolves to a live NPC, if the ship-to-target distance reaches the
disengage threshold, or the per-target tick counter has reached a
positive configured cap (0 meaning unlimited), `decide` clears the
target, lowers `in_combat`, resets the counter and returns null. -/
theorem c6_combat_disengage (cfg : BasicCombat.Cfg) (st : GameState)
    (tid : String) (target : Npc)
    (hen : cfg.enabled = true)
    (htid : st.current_target_id = some tid)
    (htgt : st.npcs.get tid = some target)
    (hcond : BasicCombat.shipTargetDistance st target ≥ (cfg.disengage_distance : ℝ) ∨
      (cfg.max_target_ticks > 0 ∧
        (st.ticks_with_current_target : ℤ) ≥ cfg.max_target_ticks)) :
    BasicCombat.decide cfg st =
      (none, { st with current_target_id := none, in_combat := false,
                       ticks_with_current_target := 0 }) := by
  simp only [BasicCombat.decide, hen, htid, htgt]
  rw [if_neg (by simp)]
  rw [if_pos hcond]

/-- C6 (witness): the spec scenario — target at distance `0.5`,
`disengage_distance = 0.35` — disengages and returns null. -/
theorem c6_combat_disengage_witness :
    BasicCombat.decide {} farState =
      (none, { farState with current_target_id := none, in_combat := false,
                             ticks_with_current_target := 0 }) := by
  refine c6_combat_disengage {} farState "npc-1" farNpc rfl rfl rfl (Or.inl ?_)
  have hd : BasicCombat.shipTargetDistance farState farNpc = 1/2 := by
    rw [BasicCombat.shipTargetDistance]
    have hx : BasicCombat.deltaX farState farNpc = (3/10 : ℝ) := by
      norm_num [BasicCombat.deltaX, farState, farNpc, initShip]
    have hy : BasicCombat.deltaY farState farNpc = (4/10 : ℝ) := by
      norm_num [BasicCombat.deltaY, farState, farNpc, initShip]
    rw [hx, hy]
    rw [show (3/10 : ℝ) * (3/10) + (4/10) * (4/10) = (1/2)^2 by norm_num]
    exact Real.sqrt_sq (by norm_num)
  rw [hd]
  show ((7/20 : ℚ) : ℝ) ≤ 1/2
  push_cast
  norm_num

/-- In-range branch of `BasicCombat.decide`: with a resolvable target
below the disengage threshold, below the tick cap and within attack
range, the result is the ATTACK action and the only state change is
`in_combat := true`. -/
theorem decide_attack_of_in_range (cfg : BasicCombat.Cfg) (st : GameState)
    (tid : String) (target : Npc)
    (hen : cfg.enabled = true)
    (htid : st.current_target_id = some tid)
    (htgt : st.npcs.get tid = some target)
    (hnot : ¬(BasicCombat.shipTargetDistance st target ≥ (cfg.disengage_distance : ℝ) ∨
      (cfg.max_target_ticks > 0 ∧
        (st.ticks_with_current_target : ℤ) ≥ cfg.max_target_ticks)))
    (hrange : BasicCombat.shipTargetDistance st target ≤ (cfg.max_target_distance : ℝ)) :
    BasicCombat.decide cfg st =
      (some (BasicCombat.attackAction tid), { st with in_combat := true }) := by
  simp only [BasicCombat.decide, hen, htid, htgt]
  rw [if_neg (by simp), if_neg hnot, if_neg (not_lt.mpr hrange)]

/-- C7: for every enabled `BasicCombat` and state whose held target
resolves to a live NPC strictly below the disengage threshold and below
the per-target cap: when the distance is within the attack range, every
repeated call to `decide` on the unchanged state returns the ATTACK
action on the held id (never a MOVE), the only state change being
`in_combat := true`; when the distance exceeds the attack range, `decide`
returns a MOVE carrying the unit vector `(dx/distance, dy/distance)`
(or `(0, 0)` at distance exactly `0`). -/
theorem c7_combat_attack_idempotent (cfg : BasicCombat.Cfg) (st : GameState)
    (tid : String) (target : Npc)
    (hen : cfg.enabled = true)
    (htid : st.current_target_id = some tid)
    (htgt : st.npcs.get tid = some target)
    (hnear : BasicCombat.shipTargetDistance st target < (cfg.disengage_distance : ℝ))
    (hticks : ¬(cfg.max_target_ticks > 0 ∧
      (st.ticks_with_current_target : ℤ) ≥ cfg.max_target_ticks)) :
    (BasicCombat.shipTargetDistance st target ≤ (cfg.max_target_distance : ℝ) →
      BasicCombat.decide cfg st =
        (some (BasicCombat.attackAction tid), { st with in_combat := true }) ∧
      BasicCombat.decide cfg { st with in_combat := true } =
        (some (BasicCombat.attackAction tid), { st with in_combat := true }) ∧
      (BasicCombat.attackAction tid).type = ActionType.ATTACK ∧
      (BasicCombat.attackAction tid).target_id = some tid ∧
      (BasicCombat.attackAction tid).type ≠ ActionType.MOVE) ∧
    (BasicCombat.shipTargetDistance st target > (cfg.max_target_distance : ℝ) →
      BasicCombat.decide cfg st =
        (some (BasicCombat.approachAction tid
          (if BasicCombat.shipTargetDistance st target > 0 then
            BasicCombat.deltaX st target / BasicCombat.shipTargetDistance st target
          else 0)
          (if BasicCombat.shipTargetDistance st target > 0 then
            BasicCombat.deltaY st target / BasicCombat.shipTargetDistance st target
          else 0)), { st with in_combat := true })) := by
  have hnot : ¬(BasicCombat.shipTargetDistance st target ≥ (cfg.disengage_distance : ℝ) ∨
      (cfg.max_target_ticks > 0 ∧
        (st.ticks_with_current_target : ℤ) ≥ cfg.max_target_ticks)) :=
    not_or.mpr ⟨not_le.mpr hnear, hticks⟩
  constructor
  · intro hrange
    have h1 := decide_attack_of_in_range cfg st tid target hen htid htgt hnot hrange
    have h2 := decide_attack_of_in_range cfg { st with in_combat := true } tid target
      hen htid htgt hnot hrange
    exact ⟨h1, h2, rfl, rfl, by simp [BasicCombat.attackAction]⟩
  · intro hfar
    simp only [BasicCombat.decide, hen, htid, htgt]
    rw [if_neg (by simp), if_neg hnot, if_pos hfar]

/-- C7 (witness): the spec scenario — target at distance `0.1` with
`max_target_distance = 0.2` — attacks, and a repeated call on the
unchanged state attacks again. -/
theorem c7_combat_attack_witness :
    BasicCombat.decide {} nearState =
      (some (BasicCombat.attackAction "npc-1"), { nearState with in_combat := true }) ∧
    BasicCombat.decide {} { nearState with in_combat := true } =
      (some (BasicCombat.attackAction "npc-1"), { nearState with in_combat := true }) := by
  have hd : BasicCombat.shipTargetDistance nearState nearNpc = 1/10 := by
    rw [BasicCombat.shipTargetDistance]
    have hx : BasicCombat.deltaX nearState nearNpc = (6/100 : ℝ) := by
      norm_num [BasicCombat.deltaX, nearState, nearNpc, initShip]
    have hy : BasicCombat.deltaY nearState nearNpc = (8/100 : ℝ) := by
      norm_num [BasicCombat.deltaY, nearState, nearNpc, initShip]
    rw [hx, hy]
    rw [show (6/100 : ℝ) * (6/100) + (8/100) * (8/100) = (1/10)^2 by norm_num]
    exact Real.sqrt_sq (by norm_num)
  have h := c7_combat_attack_idempotent {} nearState "npc-1" nearNpc rfl rfl rfl
    (by rw [hd]; show (1/10 : ℝ) < ((7/20 : ℚ) : ℝ); push_cast; norm_num)
    (by decide)
  have ha := h.1 (by rw [hd]; show (1/10 : ℝ) ≤ ((1/5 : ℚ) : ℝ); push_cast; norm_num)
  exact ⟨ha.1, ha.2.1⟩

/-! Section: C3 — strict priority and early exit in the loop tick -/

/-- C3: any successfully completed loop tick dispatches at most one
action; if `Safety.decide` returned a non-null action, then Farm, Combat
and Navigation were not invoked at all that tick and the only dispatched
action is Safety's; if Farm fired, Combat and Navigation were not
invoked. -/
theorem c3_priority_at_most_one_dispatch (b : Behaviors) (ls : LoopState)
    (out : LoopState × List Event) (hok : loopTick b ls = Except.ok out) :
    out.2.countP (fun e => Event.isDispatch e) ≤ 1 ∧
    (∀ a : BotAction, Event.sdecide (some a) ∈ out.2 →
      (∀ r, Event.fdecide r ∉ out.2) ∧ (∀ r, Event.cdecide r ∉ out.2) ∧
      (∀ r, Event.ntick r ∉ out.2) ∧
      (∀ a', Event.dispatch a' ∈ out.2 → a' = a)) ∧
    (∀ a : BotAction, Event.fdecide (some a) ∈ out.2 →
      (∀ r, Event.cdecide r ∉ out.2) ∧ (∀ r, Event.ntick r ∉ out.2)) := by
  rw [loopTick] at hok
  repeat' split at hok
  all_goals first
    | exact Except.noConfusion hok
    | (injection hok with h
       subst h
       dsimp only
       refine ⟨?_, ?_, ?_⟩ <;>
         simp [Event.isDispatch, List.countP_cons, List.countP_nil])

/-- C3 (witness): the theorem applied to the quiet behaviours on the
initial loop state (a completed no-action tick). -/
theorem c3_priority_witness :
    ([Event.vision, Event.assess 0, Event.sdecide none, Event.patrolMode,
      Event.fdecide none, Event.cdecide none, Event.ntick none,
      Event.advance].countP (fun e => Event.isDispatch e) ≤ 1 ∧
    (∀ a : BotAction,
      Event.sdecide (some a) ∈ [Event.vision, Event.assess 0, Event.sdecide none,
        Event.patrolMode, Event.fdecide none, Event.cdecide none,
        Event.ntick none, Event.advance] →
      (∀ r, Event.fdecide r ∉ [Event.vision, Event.assess 0, Event.sdecide none,
        Event.patrolMode, Event.fdecide none, Event.cdecide none,
        Event.ntick none, Event.advance]) ∧
      (∀ r, Event.cdecide r ∉ [Event.vision, Event.assess 0, Event.sdecide none,
        Event.patrolMode, Event.fdecide none, Event.cdecide none,
        Event.ntick none, Event.advance]) ∧
      (∀ r, Event.ntick r ∉ [Event.vision, Event.assess 0, Event.sdecide none,
        Event.patrolMode, Event.fdecide none, Event.cdecide none,
        Event.ntick none, Event.advance]) ∧
      (∀ a', Event.dispatch a' ∈ [Event.vision, Event.assess 0, Event.sdecide none,
        Event.patrolMode, Event.fdecide none, Event.cdecide none,
        Event.ntick none, Event.advance] → a' = a)) ∧
    (∀ a : BotAction,
      Event.fdecide (some a) ∈ [Event.vision, Event.assess 0, Event.sdecide none,
        Event.patrolMode, Event.fdecide none, Event.cdecide none,
        Event.ntick none, Event.advance] →
      (∀ r, Event.cdecide r ∉ [Event.vision, Event.assess 0, Event.sdecide none,
        Event.patrolMode, Event.fdecide none, Event.cdecide none,
        Event.ntick none, Event.advance]) ∧
      (∀ r, Event.ntick r ∉ [Event.vision, Event.assess 0, Event.sdecide none,
        Event.patrolMode, Event.fdecide none, Event.cdecide none,
        Event.ntick none, Event.advance]))) :=
  c3_priority_at_most_one_dispatch quietBehaviors initLoopState
    (⟨initState.advance_tick.advance_tick, {}, {}⟩,
     [Event.vision, Event.assess 0, Event.sdecide none, Event.patrolMode,
      Event.fdecide none, Event.cdecide none, Event.ntick none, Event.advance])
    rfl

/-! Section: C1 — tick-counter bookkeeping across a loop tick -/

theorem advance_tick_tick_counter (s : GameState) :
    s.advance_tick.tick_counter = s.tick_counter + 1 := by
  rcases h : s.current_target_id with _ | tid <;>
    simp only [GameState.advance_tick, h] <;>
    first
      | rfl
      | (split <;> first | rfl | (split <;> rfl))

theorem farmDecide_tick_counter (cfg : BasicFarm.Cfg) (g : GameState) :
    (BasicFarm.decide cfg g).2.tick_counter = g.tick_counter := by
  rw [BasicFarm.decide, BasicFarm.huntStep]
  repeat' split
  all_goals rfl

theorem combatDecide_tick_counter (cfg : BasicCombat.Cfg) (g : GameState) :
    (BasicCombat.decide cfg g).2.tick_counter = g.tick_counter := by
  rw [BasicCombat.decide]
  repeat' first | split | dsimp only
  all_goals rfl

/-- Per-tick tick-counter accounting: when the perception update adds
exactly one to the tick counter and the decision modules and the actuator
leave it alone, a completed loop tick adds exactly two (once in the
perception update, once in the loop body's own `advance_tick`). -/
theorem loopTick_tick_counter (b : Behaviors)
    (hv : ∀ g g', b.visionUpdate g = Except.ok g' →
      g'.tick_counter = g.tick_counter + 1)
    (hf : ∀ g a g', b.farmDecide g = Except.ok (a, g') →
      g'.tick_counter = g.tick_counter)
    (hc : ∀ g a g', b.combatDecide g = Except.ok (a, g') →
      g'.tick_counter = g.tick_counter)
    (hx : ∀ a g g', b.execute a g = Except.ok g' →
      g'.tick_counter = g.tick_counter)
    (ls : LoopState) (out : LoopState × List Event)
    (hok : loopTick b ls = Except.ok out) :
    out.1.game.tick_counter = ls.game.tick_counter + 2 := by
  rw [loopTick] at hok
  split at hok
  · exact Except.noConfusion hok
  rename_i g h1
  have e1 : g.tick_counter = ls.game.tick_counter + 1 := hv ls.game g h1
  split at hok
  · exact Except.noConfusion hok
  rename_i d ss1 h2
  split at hok
  · exact Except.noConfusion hok
  rename_i oa ss2 h3
  split at hok
  · -- Safety fired: escape branch.
    rename_i a
    split at hok
    · exact Except.noConfusion hok
    rename_i g2 h8
    have e2 : g2.tick_counter = g.tick_counter := hx a g g2 h8
    injection hok with h
    subst h
    dsimp only
    have e3 := advance_tick_tick_counter g2
    omega
  · split at hok
    · exact Except.noConfusion hok
    rename_i fa g2 h5
    have e2 : g2.tick_counter = g.tick_counter := hf g fa g2 h5
    split at hok
    · -- Farm fired.
      rename_i a
      split at hok
      · exact Except.noConfusion hok
      rename_i g3 h8
      have e3 : g3.tick_counter = g2.tick_counter := hx a g2 g3 h8
      injection hok with h
      subst h
      dsimp only
      have e4 := advance_tick_tick_counter g3
      omega
    · split at hok
      · exact Except.noConfusion hok
      rename_i ca g3 h6
      have e3 : g3.tick_counter = g2.tick_counter := hc g2 ca g3 h6
      split at hok
      · -- Combat fired.
        rename_i a
        split at hok
        · exact Except.noConfusion hok
        rename_i g4 h8
        have e4 : g4.tick_counter = g3.tick_counter := hx a g3 g4 h8
        injection hok with h
        subst h
        dsimp only
        have e5 := advance_tick_tick_counter g4
        omega
      · split at hok
        · exact Except.noConfusion hok
        rename_i na nav2 h7
        split at hok
        · -- Navigation fired.
          rename_i a
          split at hok
          · exact Except.noConfusion hok
          rename_i g4 h8
          have e4 : g4.tick_counter = g3.tick_counter := hx a g3 g4 h8
          injection hok with h
          subst h
          dsimp only
          have e5 := advance_tick_tick_counter g4
          omega
        · -- No module fired.
          injection hok with h
          subst h
          dsimp only
          have e4 := advance_tick_tick_counter g3
          omega

/-- C1 (amended): across every run of the loop whose perception update
advances the tick counter by exactly one per call and whose decision
modules and actuator leave it unchanged, each completed loop tick
increases `tick_counter` by exactly 2 — once in the perception update
and once more in the loop body's own tick-advance — so after `n`
completed ticks it equals its prior value plus `2 * n` (in particular it
is never decremented). -/
theorem c1_tick_counter_plus_two_per_tick (b : Behaviors)
    (hv : ∀ g g', b.visionUpdate g = Except.ok g' →
      g'.tick_counter = g.tick_counter + 1)
    (hf : ∀ g a g', b.farmDecide g = Except.ok (a, g') →
      g'.tick_counter = g.tick_counter)
    (hc : ∀ g a g', b.combatDecide g = Except.ok (a, g') →
      g'.tick_counter = g.tick_counter)
    (hx : ∀ a g g', b.execute a g = Except.ok g' →
      g'.tick_counter = g.tick_counter) :
    ∀ (n : ℕ) (ls ls' : LoopState), runLoop b n ls = Except.ok ls' →
      ls'.game.tick_counter = ls.game.tick_counter + 2 * n := by
  intro n
  induction n with
  | zero =>
      intro ls ls' h
      injection h with h
      subst h
      simp
  | succ n ih =>
      intro ls ls' h
      rw [runLoop] at h
      split at h
      · exact Except.noConfusion h
      rename_i ls1 tr hstep
      have h1 : ls1.game.tick_counter = ls.game.tick_counter + 2 :=
        loopTick_tick_counter b hv hf hc hx ls (ls1, tr) hstep
      have h2 := ih ls1 ls' h
      omega

theorem basicBehaviors_vision_tick (f : BasicFarm.Cfg) (c : BasicCombat.Cfg)
    (jx jy : ℚ) : ∀ g g', (basicBehaviors f c jx jy).visionUpdate g = Except.ok g' →
      g'.tick_counter = g.tick_counter + 1 := by
  intro g g' h
  injection h with h
  subst h
  exact advance_tick_tick_counter g

theorem basicBehaviors_farm_tick (f : BasicFarm.Cfg) (c : BasicCombat.Cfg)
    (jx jy : ℚ) : ∀ g a g', (basicBehaviors f c jx jy).farmDecide g = Except.ok (a, g') →
      g'.tick_counter = g.tick_counter := by
  intro g a g' h
  injection h with h
  have h2 : g'.tick_counter = (BasicFarm.decide f g).2.tick_counter := by rw [h]
  rw [h2]
  exact farmDecide_tick_counter f g

theorem basicBehaviors_combat_tick (f : BasicFarm.Cfg) (c : BasicCombat.Cfg)
    (jx jy : ℚ) : ∀ g a g', (basicBehaviors f c jx jy).combatDecide g = Except.ok (a, g') →
      g'.tick_counter = g.tick_counter := by
  intro g a g' h
  injection h with h
  have h2 : g'.tick_counter = (BasicCombat.decide c g).2.tick_counter := by rw [h]
  rw [h2]
  exact combatDecide_tick_counter c g

theorem basicBehaviors_execute_tick (f : BasicFarm.Cfg) (c : BasicCombat.Cfg)
    (jx jy : ℚ) : ∀ a g g', (basicBehaviors f c jx jy).execute a g = Except.ok g' →
      g'.tick_counter = g.tick_counter := by
  intro a g g' h
  injection h with h
  subst h
  rfl

/-- A tick of the concrete behaviours never raises, and its safety state
is the one produced by the two `BasicSafety.assess` runs of the tick (one
direct, one inside `BasicSafety.decide`). -/
theorem loopTick_basicBehaviors_ok (f : BasicFarm.Cfg) (c : BasicCombat.Cfg)
    (jx jy : ℚ) (ls : LoopState) :
    ∃ out : LoopState × List Event,
      loopTick (basicBehaviors f c jx jy) ls = Except.ok out ∧
      out.1.safety =
        (BasicSafety.decide
          (BasicSafety.assess ls.safety (DummyVision.update_state ls.game)).2
          (DummyVision.update_state ls.game)).2 := by
  rw [loopTick]
  rcases hA : BasicSafety.assess ls.safety (DummyVision.update_state ls.game)
    with ⟨d, ss1⟩
  rcases hD : BasicSafety.decide ss1 (DummyVision.update_state ls.game)
    with ⟨oa, ss2⟩
  dsimp only [basicBehaviors]
  rw [hA]
  dsimp only
  rw [hD]
  dsimp only
  rcases oa with _ | a
  · rcases hF : BasicFarm.decide f (DummyVision.update_state ls.game) with ⟨fa, g2⟩
    dsimp only
    rcases fa with _ | a
    · rcases hC : BasicCombat.decide c g2 with ⟨ca, g3⟩
      dsimp only
      rcases ca with _ | a
      · rcases hN : SimpleNavigation.tick jx jy
            (SimpleNavigation.enter_patrol_mode ls.nav) g3 with ⟨na, nav2⟩
        dsimp only
        rcases na with _ | a
        · exact ⟨_, rfl, by dsimp only [hD]⟩
        · exact ⟨_, rfl, by dsimp only [hD]⟩
      · exact ⟨_, rfl, by dsimp only [hD]⟩
    · exact ⟨_, rfl, by dsimp only [hD]⟩
  · exact ⟨_, rfl, by dsimp only [hD]⟩

/-- C1 (counterexample): running the loop with the in-repository modules
(`DummyVision` perception, basic safety/farm/combat, simple navigation)
for one completed tick from the initial state raises `tick_counter` from
0 to 2, not to 1: the tick advance in `vision.update_state` is duplicated
by the loop body's own `state.advance_tick()`. -/
theorem c1_tick_advances_twice_counterexample :
    (∃ ls' : LoopState,
      runLoop (basicBehaviors {} {} 0 0) 1 initLoopState = Except.ok ls' ∧
      ls'.game.tick_counter = 2) ∧
    initLoopState.game.tick_counter = 0 ∧ (2 : ℕ) ≠ 0 + 1 := by
  obtain ⟨⟨ls1, tr⟩, hok, -⟩ := loopTick_basicBehaviors_ok {} {} 0 0 initLoopState
  have htick : ls1.game.tick_counter = initLoopState.game.tick_counter + 2 :=
    loopTick_tick_counter (basicBehaviors {} {} 0 0)
      (basicBehaviors_vision_tick {} {} 0 0)
      (basicBehaviors_farm_tick {} {} 0 0)
      (basicBehaviors_combat_tick {} {} 0 0)
      (basicBehaviors_execute_tick {} {} 0 0)
      initLoopState (ls1, tr) hok
  refine ⟨⟨ls1, ?_, ?_⟩, rfl, by omega⟩
  · show (match loopTick (basicBehaviors {} {} 0 0) initLoopState with
      | Except.error e => Except.error e
      | Except.ok (ls', _) => runLoop (basicBehaviors {} {} 0 0) 0 ls') =
        Except.ok ls1
    rw [hok]
    rfl
  · have h0 : initLoopState.game.tick_counter = 0 := rfl
    omega

/-- C1 (witness): the amended theorem on the concrete modules for one
tick from the initial state. -/
theorem c1_tick_counter_plus_two_witness :
    ∃ ls' : LoopState,
      runLoop (basicBehaviors {} {} 0 0) 1 initLoopState = Except.ok ls' ∧
      ls'.game.tick_counter = initLoopState.game.tick_counter + 2 * 1 := by
  obtain ⟨⟨ls1, tr⟩, hok, -⟩ := loopTick_basicBehaviors_ok {} {} 0 0 initLoopState
  have hrun : runLoop (basicBehaviors {} {} 0 0) 1 initLoopState = Except.ok ls1 := by
    show (match loopTick (basicBehaviors {} {} 0 0) initLoopState with
      | Except.error e => Except.error e
      | Except.ok (ls', _) => runLoop (basicBehaviors {} {} 0 0) 0 ls') =
        Except.ok ls1
    rw [hok]
    rfl
  exact ⟨ls1, hrun,
    c1_tick_counter_plus_two_per_tick (basicBehaviors {} {} 0 0)
      (basicBehaviors_vision_tick {} {} 0 0)
      (basicBehaviors_farm_tick {} {} 0 0)
      (basicBehaviors_combat_tick {} {} 0 0)
      (basicBehaviors_execute_tick {} {} 0 0)
      1 initLoopState ls1 hrun⟩

/-! Section: C4 — exception behaviour of the loop -/

/-- C4 (counterexample): the claim says a decision-module exception
during a tick is caught and the loop continues; with a combat module
that raises, the whole bounded run aborts with that error instead of
completing its two ticks. -/
theorem c4_module_exception_crashes_loop_counterexample :
    runLoop throwingCombatBehaviors 2 initLoopState = Except.error "boom" := by
  rfl

/-- C4 (amended): the loop body contains no exception handler, so an
exception raised by the perception update, a decision module, or the
actuator dispatch propagates out of the tick and aborts the whole
remaining run (the `finally` block still attempts driver shutdown; only
startup failures abort before the loop starts). -/
theorem c4_exceptions_propagate :
    (∀ (b : Behaviors) (ls : LoopState) (e : String),
      b.visionUpdate ls.game = Except.error e → loopTick b ls = Except.error e) ∧
    (∀ (b : Behaviors) (ls : LoopState) (e : String) (g : GameState)
        (d : ℤ) (ss1 ss2 : BasicSafety.State),
      b.visionUpdate ls.game = Except.ok g →
      b.safetyAssess g ls.safety = Except.ok (d, ss1) →
      b.safetyDecide g ss1 = Except.ok (none, ss2) →
      b.farmDecide g = Except.error e →
      loopTick b ls = Except.error e) ∧
    (∀ (b : Behaviors) (ls : LoopState) (e : String) (n : ℕ),
      loopTick b ls = Except.error e →
      runLoop b (n + 1) ls = Except.error e) := by
  refine ⟨?_, ?_, ?_⟩
  · intro b ls e h
    rw [loopTick, h]
  · intro b ls e g d ss1 ss2 h1 h2 h3 h4
    simp only [loopTick, h1, h2, h3, h4]
  · intro b ls e n h
    rw [runLoop, h]

/-- C4 (witness): the propagation theorem on the concrete throwing
combat module. -/
theorem c4_exceptions_propagate_witness :
    runLoop throwingCombatBehaviors 1 initLoopState = Except.error "boom" :=
  c4_exceptions_propagate.2.2 throwingCombatBehaviors initLoopState "boom" 0 rfl

/-! Section: C10 — statefulness of `BasicSafety.assess` -/

theorem advance_tick_ship (s : GameState) : s.advance_tick.ship = s.ship := by
  rcases h : s.current_target_id with _ | tid <;>
    simp only [GameState.advance_tick, h] <;>
    first
      | rfl
      | (split <;> first | rfl | (split <;> rfl))

theorem assess_snd_last_position (ss : BasicSafety.State) (st : GameState) :
    (BasicSafety.assess ss st).2.last_position = some st.ship.position := rfl

theorem assess_streak_some (ss : BasicSafety.State) (st : GameState)
    (lp : Position) (h : ss.last_position = some lp) :
    (BasicSafety.assess ss st).2.stationary_ticks =
      if (st.ship.position.x - lp.x) * (st.ship.position.x - lp.x) +
         (st.ship.position.y - lp.y) * (st.ship.position.y - lp.y) ≤
         BasicSafety.stationary_epsilon * BasicSafety.stationary_epsilon
      then ss.stationary_ticks + 1 else 0 := by
  simp only [BasicSafety.assess, h]

theorem assess_streak_none (ss : BasicSafety.State) (st : GameState)
    (h : ss.last_position = none) :
    (BasicSafety.assess ss st).2.stationary_ticks = 0 := by
  simp only [BasicSafety.assess, h]

theorem safety_decide_snd (ss : BasicSafety.State) (st : GameState) :
    (BasicSafety.decide ss st).2 = (BasicSafety.assess ss st).2 := by
  rcases h : BasicSafety.assess ss st with ⟨d, ss'⟩
  simp only [BasicSafety.decide, h]
  split <;> rfl

/-- C10: `BasicSafety.assess` is stateful.  (i) Each call moves the
module-private streak: it adds 1 exactly when the ship position is within
epsilon `1e-3` (Euclidean) of the position seen at the previous call, and
resets it to 0 otherwise or when no previous position exists; the call
also records the current position.  (ii) Two consecutive `assess` calls
on an identical `GameState` can return different scores.  (iii) One tick
of the main loop with the concrete modules runs `assess` twice (once
directly, once inside `Safety.decide`), so a stationary ship's streak
advances by 2 per loop tick — streak thresholds are reached after half as
many loop ticks as `assess` calls. -/
theorem c10_assess_stateful_streak :
    (∀ (ss : BasicSafety.State) (st : GameState),
      (∀ lp, ss.last_position = some lp →
        (BasicSafety.assess ss st).2.stationary_ticks =
          if (st.ship.position.x - lp.x) * (st.ship.position.x - lp.x) +
             (st.ship.position.y - lp.y) * (st.ship.position.y - lp.y) ≤
             BasicSafety.stationary_epsilon * BasicSafety.stationary_epsilon
          then ss.stationary_ticks + 1 else 0) ∧
      (ss.last_position = none →
        (BasicSafety.assess ss st).2.stationary_ticks = 0) ∧
      (BasicSafety.assess ss st).2.last_position = some st.ship.position) ∧
    (∃ (ss : BasicSafety.State) (st : GameState),
      (BasicSafety.assess ss st).1 ≠
        (BasicSafety.assess (BasicSafety.assess ss st).2 st).1) ∧
    (∀ (f : BasicFarm.Cfg) (c : BasicCombat.Cfg) (jx jy : ℚ)
        (ls : LoopState) (lp : Position),
      ls.safety.last_position = some lp →
      (ls.game.ship.position.x - lp.x) * (ls.game.ship.position.x - lp.x) +
        (ls.game.ship.position.y - lp.y) * (ls.game.ship.position.y - lp.y) ≤
        BasicSafety.stationary_epsilon * BasicSafety.stationary_epsilon →
      ∃ out : LoopState × List Event,
        loopTick (basicBehaviors f c jx jy) ls = Except.ok out ∧
        out.1.safety.stationary_ticks = ls.safety.stationary_ticks + 2) := by
  refine ⟨?_, ?_, ?_⟩
  · intro ss st
    exact ⟨fun lp h => assess_streak_some ss st lp h,
           fun h => assess_streak_none ss st h,
           assess_snd_last_position ss st⟩
  · refine ⟨⟨some ⟨0, 0⟩, 48⟩, initState, ?_⟩
    have hA : BasicSafety.assess ⟨some ⟨0, 0⟩, 48⟩ initState =
        (0, ⟨some ⟨0, 0⟩, 49⟩) := by
      norm_num [BasicSafety.assess, initState, initShip,
        BasicSafety.edge_danger_threshold, BasicSafety.edge_warn_threshold,
        BasicSafety.stationary_ticks_warn, BasicSafety.stationary_ticks_escape,
        BasicSafety.stationary_epsilon, abs_of_nonneg, max_def, min_def]
    have hB : BasicSafety.assess ⟨some ⟨0, 0⟩, 49⟩ initState =
        (20, ⟨some ⟨0, 0⟩, 50⟩) := by
      norm_num [BasicSafety.assess, initState, initShip,
        BasicSafety.edge_danger_threshold, BasicSafety.edge_warn_threshold,
        BasicSafety.stationary_ticks_warn, BasicSafety.stationary_ticks_escape,
        BasicSafety.stationary_epsilon, abs_of_nonneg, max_def, min_def]
    rw [hA]
    dsimp only
    rw [hB]
    decide
  · intro f c jx jy ls lp hlp hclose
    obtain ⟨out, hok, hsafety⟩ := loopTick_basicBehaviors_ok f c jx jy ls
    refine ⟨out, hok, ?_⟩
    rw [hsafety, safety_decide_snd]
    have hship : (DummyVision.update_state ls.game).ship = ls.game.ship :=
      advance_tick_ship ls.game
    rw [assess_streak_some _ _ _
      (assess_snd_last_position ls.safety (DummyVision.update_state ls.game))]
    rw [if_pos (by simp [BasicSafety.stationary_epsilon])]
    rw [assess_streak_some ls.safety (DummyVision.update_state ls.game) lp hlp,
      hship, if_pos hclose]

/-- C10 (witness): the loop-streak part evaluated on a stationary ship:
the streak goes from 7 to 9 in one loop tick. -/
theorem c10_assess_stateful_witness :
    ∃ out : LoopState × List Event,
      loopTick (basicBehaviors {} {} 0 0) stationaryLoopState = Except.ok out ∧
      out.1.safety.stationary_ticks =
        stationaryLoopState.safety.stationary_ticks + 2 :=
  c10_assess_stateful_streak.2.2 {} {} 0 0 stationaryLoopState ⟨0, 0⟩ rfl
    (by norm_num [stationaryLoopState, initState, initShip,
      BasicSafety.stationary_epsilon])

end SpaceAces
